import Mathlib

/-!
Shallow embedding of `src/smartnode.c` (ESP32 smart flood node).

The C program samples a rain sensor and an ultrasonic distance sensor,
classifies the readings through two threshold ladders, prints a diagnostic
block, performs a bounded WiFi reconnection if needed, and POSTs a JSON
payload when the link is up. External effects (analogRead, pulseIn, WiFi
status polling, client allocation, HTTP response) are inputs of the model;
the observable behaviour of one `loop()` iteration is recorded in a
`CycleResult`.
-/

namespace SmartNode

/-- The `nodeID` constant of the source. -/
def nodeID : String := "floodnode_01"

/-- The five rain-intensity bands produced by the intensity ladder
(lines 88-97 of `smartnode.c`). -/
inductive RainIntensity where
  | NO_RAIN
  | LIGHT
  | MODERATE
  | HEAVY
  | TORRENTIAL
deriving DecidableEq, Repr

/-- The four flood-status levels produced by the flood ladder
(lines 100-107 of `smartnode.c`). -/
inductive FloodStatus where
  | NORMAL
  | RAIN_ALERT
  | FLOOD_RISK
  | CRITICAL_FLOOD
deriving DecidableEq, Repr

/-- Intensity ladder, straight from the source: strictly-greater
comparisons evaluated top-down, `TORRENTIAL` as the default branch. -/
def rainIntensity (rainAnalog : Int) : RainIntensity :=
  if rainAnalog > 3600 then .NO_RAIN
  else if rainAnalog > 3000 then .LIGHT
  else if rainAnalog > 2400 then .MODERATE
  else if rainAnalog > 1800 then .HEAVY
  else .TORRENTIAL

/-- Flood ladder, straight from the source: evaluated top-down, first
match wins, `NORMAL` as the default branch.  `distanceCM` is the float
distance, modelled as a rational. -/
def floodStatus (rainAnalog : Int) (distanceCM : ℚ) : FloodStatus :=
  if rainAnalog < 2400 ∧ distanceCM < 10 then .CRITICAL_FLOOD
  else if rainAnalog < 2400 ∧ distanceCM < 20 then .FLOOD_RISK
  else if rainAnalog < 2400 then .RAIN_ALERT
  else .NORMAL

/-- The string written to `rainIntensity` by each branch of the source. -/
def intensityLabel : RainIntensity → String
  | .NO_RAIN => "NO RAIN"
  | .LIGHT => "LIGHT RAIN"
  | .MODERATE => "MODERATE RAIN"
  | .HEAVY => "HEAVY RAIN"
  | .TORRENTIAL => "TORRENTIAL RAIN"

/-- The string written to `floodStatus` by each branch of the source. -/
def floodLabel : FloodStatus → String
  | .NORMAL => "NORMAL"
  | .RAIN_ALERT => "RAIN ALERT"
  | .FLOOD_RISK => "FLOOD RISK"
  | .CRITICAL_FLOOD => "CRITICAL FLOOD"

/-- `getUltrasonic` (lines 67-79): `duration` is the value returned by
`pulseIn` with its 30 ms timeout (`0` means no echo).  Returns the 400 cm
sentinel on timeout, otherwise `(duration * 0.034) / 2` with the float
arithmetic modelled over the rationals (0.034 = 34/1000). -/
def getUltrasonic (duration : Nat) : ℚ :=
  if duration = 0 then 400
  else ((duration : ℚ) * (34 / 1000)) / 2

/-- Observable outcome of one `checkWiFi()` call (lines 47-64).
`connected` is the link state seen by the caller afterwards,
`disconnectCalled` / `beginCalled` record whether the reconnection
branch ran its `WiFi.disconnect()` / `WiFi.begin()` calls, and
`attempts` is the final value of the loop counter. -/
structure CheckWiFiResult where
  connected : Bool
  disconnectCalled : Bool
  beginCalled : Bool
  attempts : Nat
deriving DecidableEq, Repr

/-- The `while (WiFi.status() != WL_CONNECTED && attempts < 20)` loop of
`checkWiFi`.  `link k` is the status observed after `k` delay periods;
the fuel argument starts at `20 - attempts`, so the loop stops as soon
as the link is up or the attempt budget is spent. -/
def reconnectLoop (link : Nat → Bool) : Nat → Nat → Nat
  | a, 0 => a
  | a, fuel + 1 => if link a then a else reconnectLoop link (a + 1) fuel

/-- `checkWiFi` (lines 47-64): no-op when the status is already
connected; otherwise disconnect, begin, poll up to 20 times, and leave
the final link status for the caller to observe. -/
def checkWiFi (status : Bool) (link : Nat → Bool) : CheckWiFiResult :=
  if status then ⟨true, false, false, 0⟩
  else
    let a := reconnectLoop link 0 20
    ⟨link a, true, true, a⟩

/-- The per-cycle diagnostic block printed on lines 110-126: rain raw
value, intensity label, water distance, flood label. -/
structure Diagnostic where
  rainSensor : Int
  rainLine : String
  waterDistance : ℚ
  floodLine : String
deriving DecidableEq, Repr

/-- The flat outbound record built on line 140 of the source. -/
structure Payload where
  node_id : String
  rain_analog : Int
  rain_intensity : String
  water_distance_cm : ℚ
  flood_status : String
deriving DecidableEq, Repr

/-- How the report phase of a cycle ended. -/
inductive ReportOutcome where
  | SENT (code : Int)
  | SKIPPED_NO_LINK
  | SKIPPED_CLIENT_ALLOC
deriving DecidableEq, Repr

/-- Everything one `loop()` iteration does that is visible outside:
the printed diagnostic, the link state at report time, how many POSTs
were issued, the payload and content-type header if any, the report
outcome, and the final `delay(4000)`. -/
structure CycleResult where
  diagnostic : Diagnostic
  linkAtReport : Bool
  sendCount : Nat
  sentPayload : Option Payload
  contentTypeHeader : Option (String × String)
  outcome : ReportOutcome
  sleepMs : Nat
deriving DecidableEq, Repr

/-- One iteration of `loop()` (lines 81-153).  Inputs are the external
effects of the cycle: `rainAnalog` from `analogRead`, `duration` from
`pulseIn`, `status` the WiFi status at the start of `checkWiFi`,
`link` the status sequence observed by the reconnection poll,
`clientAllocOk` whether `new WiFiClientSecure` succeeds, and `code` the
HTTP response code of the POST. -/
def loopBody (rainAnalog : Int) (duration : Nat) (status : Bool)
    (link : Nat → Bool) (clientAllocOk : Bool) (code : Int) : CycleResult :=
  let distanceCM := getUltrasonic duration
  let rainS := intensityLabel (rainIntensity rainAnalog)
  let floodS := floodLabel (floodStatus rainAnalog distanceCM)
  let diag : Diagnostic := ⟨rainAnalog, rainS, distanceCM, floodS⟩
  let wifiAfter := (checkWiFi status link).connected
  if wifiAfter then
    if clientAllocOk then
      ⟨diag, true, 1, some ⟨nodeID, rainAnalog, rainS, distanceCM, floodS⟩,
        some ("Content-Type", "application/json"), .SENT code, 4000⟩
    else
      ⟨diag, true, 0, none, none, .SKIPPED_CLIENT_ALLOC, 4000⟩
  else
    ⟨diag, false, 0, none, none, .SKIPPED_NO_LINK, 4000⟩

end SmartNode

namespace SmartNode

/-- The first branch of the flood ladder fires exactly on its own guard. -/
theorem floodStatus_eq_CRITICAL_iff (rain : Int) (d : ℚ) :
    floodStatus rain d = .CRITICAL_FLOOD ↔ rain < 2400 ∧ d < 10 := by
  unfold floodStatus
  split_ifs with h1 h2 h3 <;> simp_all

/-- The second branch of the flood ladder fires exactly when the first
does not and its own guard holds. -/
theorem floodStatus_eq_RISK_iff (rain : Int) (d : ℚ) :
    floodStatus rain d = .FLOOD_RISK ↔ rain < 2400 ∧ 10 ≤ d ∧ d < 20 := by
  unfold floodStatus
  split_ifs with h1 h2 h3 <;> simp_all <;> linarith

/-- The third branch of the flood ladder fires exactly when the distance
guards of the first two branches both fail. -/
theorem floodStatus_eq_ALERT_iff (rain : Int) (d : ℚ) :
    floodStatus rain d = .RAIN_ALERT ↔ rain < 2400 ∧ 20 ≤ d := by
  unfold floodStatus
  split_ifs with h1 h2 h3 <;> simp_all <;> linarith

/-- The default branch of the flood ladder fires exactly when
`rain < 2400` fails. -/
theorem floodStatus_eq_NORMAL_iff (rain : Int) (d : ℚ) :
    floodStatus rain d = .NORMAL ↔ 2400 ≤ rain := by
  unfold floodStatus
  split_ifs with h1 h2 h3 <;> simp_all <;> omega

/-- Claim C1: for every rain value and every nonnegative distance the flood
ladder follows the exact priority order with first match winning:
CRITICAL_FLOOD iff `rain < 2400 ∧ d < 10` (regardless of anything else),
FLOOD_RISK iff `rain < 2400 ∧ 10 ≤ d < 20`, RAIN_ALERT iff
`rain < 2400 ∧ 20 ≤ d`, NORMAL otherwise; in particular FLOOD_RISK never
overrides CRITICAL_FLOOD. -/
theorem flood_priority_order (rain : Int) (d : ℚ) (hd : 0 ≤ d) :
    (floodStatus rain d = .CRITICAL_FLOOD ↔ rain < 2400 ∧ d < 10) ∧
    (floodStatus rain d = .FLOOD_RISK ↔ rain < 2400 ∧ 10 ≤ d ∧ d < 20) ∧
    (floodStatus rain d = .RAIN_ALERT ↔ rain < 2400 ∧ 20 ≤ d) ∧
    (floodStatus rain d = .NORMAL ↔ 2400 ≤ rain) :=
  ⟨floodStatus_eq_CRITICAL_iff rain d, floodStatus_eq_RISK_iff rain d,
   floodStatus_eq_ALERT_iff rain d, floodStatus_eq_NORMAL_iff rain d⟩

/-- Claim C1 witness: at `rain = 2000, d = 8` the flood status is
CRITICAL_FLOOD. -/
theorem flood_priority_order_witness :
    floodStatus 2000 (8 : ℚ) = .CRITICAL_FLOOD :=
  (flood_priority_order 2000 8 (by norm_num)).1.mpr (by norm_num)

/-- Claim C2: the intensity ladder is a total function whose five bands
partition the integers with exclusive lower bounds, determined top-down
by strictly-greater comparisons; the boundary `rain = 3600` falls to the
LIGHT branch, and TORRENTIAL is the default band. -/
theorem rain_band_iff (rain : Int) :
    (rainIntensity rain = .NO_RAIN ↔ 3600 < rain) ∧
    (rainIntensity rain = .LIGHT ↔ 3000 < rain ∧ rain ≤ 3600) ∧
    (rainIntensity rain = .MODERATE ↔ 2400 < rain ∧ rain ≤ 3000) ∧
    (rainIntensity rain = .HEAVY ↔ 1800 < rain ∧ rain ≤ 2400) ∧
    (rainIntensity rain = .TORRENTIAL ↔ rain ≤ 1800) ∧
    rainIntensity 3600 = .LIGHT := by
  refine ⟨?_, ?_, ?_, ?_, ?_, by decide⟩ <;> unfold rainIntensity <;>
    split_ifs <;> simp_all <;> omega

/-- Claim C3: whenever `rain ≥ 2400` the flood status is NORMAL for every
distance, however small; in particular `rain = 3700, d = 5` classifies as
NO_RAIN with flood status NORMAL. -/
theorem dry_suppresses_flood (rain : Int) (d : ℚ) (h : 2400 ≤ rain) :
    floodStatus rain d = .NORMAL ∧
    rainIntensity 3700 = .NO_RAIN ∧ floodStatus 3700 (5 : ℚ) = .NORMAL := by
  refine ⟨(floodStatus_eq_NORMAL_iff rain d).mpr h, by decide, by decide⟩

/-- Claim C3 witness: instantiated at `rain = 3700, d = 5`. -/
theorem dry_suppresses_flood_witness :
    floodStatus 3700 (5 : ℚ) = .NORMAL ∧
    rainIntensity 3700 = .NO_RAIN ∧ floodStatus 3700 (5 : ℚ) = .NORMAL :=
  dry_suppresses_flood 3700 5 (by norm_num)

/-- Claim C4: `getUltrasonic` returns exactly the 400 cm sentinel when the
pulse measurement reports elapsed time 0 (the 30 ms timeout case), and
otherwise `(duration * 0.034) / 2`; the timeout is recovered locally, the
function is total and never signals an error. -/
theorem ultrasonic_sentinel (dur : Nat) (h : 0 < dur) :
    getUltrasonic 0 = 400 ∧
    getUltrasonic dur = ((dur : ℚ) * (34 / 1000)) / 2 := by
  refine ⟨by decide, ?_⟩
  unfold getUltrasonic
  rw [if_neg (by omega)]

/-- Claim C4 witness: instantiated at `duration = 1000`, where the result
is 17 cm. -/
theorem ultrasonic_sentinel_witness :
    (getUltrasonic 0 = 400 ∧
      getUltrasonic 1000 = ((1000 : ℚ) * (34 / 1000)) / 2) ∧
    getUltrasonic 1000 = 17 :=
  ⟨ultrasonic_sentinel 1000 (by norm_num), by norm_num [getUltrasonic]⟩

end SmartNode

namespace SmartNode

/-- Invariants of the bounded reconnection poll: the attempt counter only
grows, never beyond the fuel budget, the loop stops either on an observed
connected status or with the budget spent, and every status observed
strictly before the stopping point was disconnected. -/
theorem reconnectLoop_spec (link : Nat → Bool) :
    ∀ fuel a,
      a ≤ reconnectLoop link a fuel ∧
      reconnectLoop link a fuel ≤ a + fuel ∧
      (link (reconnectLoop link a fuel) = true ∨ reconnectLoop link a fuel = a + fuel) ∧
      ∀ k, a ≤ k → k < reconnectLoop link a fuel → link k = false := by
  intro fuel
  induction fuel with
  | zero =>
    intro a
    refine ⟨Nat.le_refl a, by simp [reconnectLoop], Or.inr (by simp [reconnectLoop]),
      fun k h1 h2 => ?_⟩
    exact absurd h2 (by simp [reconnectLoop] at h2 ⊢; omega)
  | succ n ih =>
    intro a
    by_cases h : link a = true
    · simp only [reconnectLoop, h, if_true]
      refine ⟨Nat.le_refl a, by omega, Or.inl trivial, fun k h1 h2 => ?_⟩
      exact absurd h2 (Nat.not_lt.mpr h1)
    · have h0 : link a = false := by simpa using h
      obtain ⟨ih1, ih2, ih3, ih4⟩ := ih (a + 1)
      simp only [reconnectLoop, h0, Bool.false_eq_true, if_false]
      refine ⟨by omega, by omega, ?_, ?_⟩
      · rcases ih3 with h3 | h3
        · exact Or.inl h3
        · exact Or.inr (by omega)
      · intro k hk1 hk2
        rcases Nat.eq_or_lt_of_le hk1 with rfl | hk
        · exact h0
        · exact ih4 k (by omega) hk2

/-- Claim C5: called in the disconnected state, `checkWiFi` makes at most
20 polling attempts and always terminates; if the link comes up within the
attempt window the caller observes a connected state, and if the link
never returns the state stays disconnected after exactly 20 attempts, with
the failure visible to the caller. -/
theorem bounded_reconnect (link : Nat → Bool) (hdown : ∀ k, link k = false) :
    (∀ l : Nat → Bool, (checkWiFi false l).attempts ≤ 20) ∧
    (∀ l : Nat → Bool, (∃ k, k ≤ 20 ∧ l k = true) →
      (checkWiFi false l).connected = true) ∧
    (checkWiFi false link).connected = false ∧
    (checkWiFi false link).attempts = 20 := by
  refine ⟨?_, ?_, ?_, ?_⟩
  · intro l
    obtain ⟨-, h2, -, -⟩ := reconnectLoop_spec l 20 0
    simpa [checkWiFi] using h2
  · rintro l ⟨k, hk, hlk⟩
    obtain ⟨h1, h2, h3, h4⟩ := reconnectLoop_spec l 20 0
    simp only [checkWiFi, Bool.false_eq_true, if_false]
    rcases h3 with h3 | h3
    · exact h3
    · have hr : reconnectLoop l 0 20 = 20 := by omega
      rcases Nat.lt_or_ge k 20 with hk20 | hk20
      · exact absurd hlk (by simp [h4 k (Nat.zero_le k) (by omega)])
      · have hk' : k = 20 := by omega
        rw [hr, ← hk']
        exact hlk
  · simp [checkWiFi, hdown]
  · obtain ⟨h1, h2, h3, h4⟩ := reconnectLoop_spec link 20 0
    rcases h3 with h3 | h3
    · rw [hdown] at h3; exact absurd h3 (by simp)
    · simp only [checkWiFi, Bool.false_eq_true, if_false]
      omega

/-- Claim C5 witness: with a link that never comes up, `checkWiFi`
terminates disconnected after exactly 20 attempts. -/
theorem bounded_reconnect_witness :
    (checkWiFi false (fun _ => false)).connected = false ∧
    (checkWiFi false (fun _ => false)).attempts = 20 :=
  ⟨(bounded_reconnect (fun _ => false) (fun _ => rfl)).2.2.1,
   (bounded_reconnect (fun _ => false) (fun _ => rfl)).2.2.2⟩

/-- Claim C7: when the link is already connected, `checkWiFi` is a no-op:
no disconnect, no reconnection attempt, state unchanged. -/
theorem ensure_connected_noop (link : Nat → Bool) :
    checkWiFi true link = ⟨true, false, false, 0⟩ := rfl

/-- Claim C6: a cycle whose link is down and stays down through the whole
reconnection window still produces the full diagnostic summary (rain
value, intensity label, distance, flood label), attempts no transmission,
and proceeds to the 4000 ms sleep. -/
theorem cycle_link_down (rain : Int) (dur : Nat) (allocOk : Bool) (code : Int)
    (link : Nat → Bool) (hdown : ∀ k, link k = false) :
    (loopBody rain dur false link allocOk code).outcome = .SKIPPED_NO_LINK ∧
    (loopBody rain dur false link allocOk code).sendCount = 0 ∧
    (loopBody rain dur false link allocOk code).sentPayload = none ∧
    (loopBody rain dur false link allocOk code).diagnostic =
      ⟨rain, intensityLabel (rainIntensity rain), getUltrasonic dur,
        floodLabel (floodStatus rain (getUltrasonic dur))⟩ ∧
    (loopBody rain dur false link allocOk code).sleepMs = 4000 := by
  have hc : (checkWiFi false link).connected = false := by
    simp [checkWiFi, hdown]
  simp [loopBody, hc]

/-- Claim C6 witness: a concrete cycle with the link down throughout. -/
theorem cycle_link_down_witness :
    (loopBody 2000 0 false (fun _ => false) true 200).outcome = .SKIPPED_NO_LINK ∧
    (loopBody 2000 0 false (fun _ => false) true 200).sendCount = 0 ∧
    (loopBody 2000 0 false (fun _ => false) true 200).sentPayload = none ∧
    (loopBody 2000 0 false (fun _ => false) true 200).diagnostic =
      ⟨2000, intensityLabel (rainIntensity 2000), getUltrasonic 0,
        floodLabel (floodStatus 2000 (getUltrasonic 0))⟩ ∧
    (loopBody 2000 0 false (fun _ => false) true 200).sleepMs = 4000 :=
  cycle_link_down 2000 0 true 200 (fun _ => false) (fun _ => rfl)

end SmartNode

namespace SmartNode

/-- Claim C8 counterexample: a cycle whose link is up at report time but
whose secure-client allocation fails transmits nothing, so "link up
implies exactly one message sent" is false as stated. -/
theorem report_every_link_up_cycle_cex :
    (loopBody 2000 100 true (fun _ => false) false 200).linkAtReport = true ∧
    (loopBody 2000 100 true (fun _ => false) false 200).sendCount = 0 := by
  constructor <;> rfl

/-- Claim C8 (amended): in every cycle whose link is up at report time and
whose secure-transport client allocation succeeds, exactly one message is
transmitted, a flat record with exactly the fields node_id, rain_analog,
rain_intensity, water_distance_cm and flood_status, declared JSON via a
content-type header, with no queuing or retry. -/
theorem report_when_connected (rain : Int) (dur : Nat) (status : Bool)
    (link : Nat → Bool) (code : Int)
    (hup : (checkWiFi status link).connected = true) :
    (loopBody rain dur status link true code).sendCount = 1 ∧
    (loopBody rain dur status link true code).sentPayload =
      some ⟨nodeID, rain, intensityLabel (rainIntensity rain),
        getUltrasonic dur, floodLabel (floodStatus rain (getUltrasonic dur))⟩ ∧
    (loopBody rain dur status link true code).contentTypeHeader =
      some ("Content-Type", "application/json") ∧
    (loopBody rain dur status link true code).outcome = .SENT code := by
  simp [loopBody, hup]

/-- Claim C8 witness: a concrete connected cycle that sends exactly one
message with the five payload fields. -/
theorem report_when_connected_witness :
    (loopBody 2000 1000 true (fun _ => false) true 200).sendCount = 1 ∧
    (loopBody 2000 1000 true (fun _ => false) true 200).sentPayload =
      some ⟨nodeID, 2000, intensityLabel (rainIntensity 2000),
        getUltrasonic 1000, floodLabel (floodStatus 2000 (getUltrasonic 1000))⟩ ∧
    (loopBody 2000 1000 true (fun _ => false) true 200).contentTypeHeader =
      some ("Content-Type", "application/json") ∧
    (loopBody 2000 1000 true (fun _ => false) true 200).outcome = .SENT 200 :=
  report_when_connected 2000 1000 true (fun _ => false) 200 rfl

/-- Claim C9: if the per-cycle secure-transport client allocation fails
while the link is up, the cycle sends nothing, takes no error action
(outcome is just the silent skip), the diagnostic of the cycle is the same
as it would have been with a successful allocation, and the cycle proceeds
to the 4000 ms sleep. -/
theorem alloc_fail_skips_send (rain : Int) (dur : Nat) (status : Bool)
    (link : Nat → Bool) (code : Int)
    (hup : (checkWiFi status link).connected = true) :
    (loopBody rain dur status link false code).sendCount = 0 ∧
    (loopBody rain dur status link false code).sentPayload = none ∧
    (loopBody rain dur status link false code).outcome = .SKIPPED_CLIENT_ALLOC ∧
    (loopBody rain dur status link false code).sleepMs = 4000 ∧
    (loopBody rain dur status link false code).diagnostic =
      (loopBody rain dur status link true code).diagnostic := by
  simp [loopBody, hup]

/-- Claim C9 witness: a concrete connected cycle with failed allocation. -/
theorem alloc_fail_skips_send_witness :
    (loopBody 2000 1000 true (fun _ => false) false 200).sendCount = 0 ∧
    (loopBody 2000 1000 true (fun _ => false) false 200).sentPayload = none ∧
    (loopBody 2000 1000 true (fun _ => false) false 200).outcome = .SKIPPED_CLIENT_ALLOC ∧
    (loopBody 2000 1000 true (fun _ => false) false 200).sleepMs = 4000 ∧
    (loopBody 2000 1000 true (fun _ => false) false 200).diagnostic =
      (loopBody 2000 1000 true (fun _ => false) true 200).diagnostic :=
  alloc_fail_skips_send 2000 1000 true (fun _ => false) 200 rfl

/-- Claim C10: the intensity ladder tests `rain > 2400` while the flood
ladder tests `rain < 2400`, so a non-NORMAL flood status always comes
with HEAVY or TORRENTIAL intensity, the two ladders disagree exactly at
`rain = 2400` (HEAVY intensity yet NORMAL flood status for every
distance), and away from 2400 "non-NORMAL flood" and "HEAVY or
TORRENTIAL intensity" coincide. -/
theorem ladders_disagree_only_at_2400 (rain : Int) (d : ℚ) :
    (floodStatus rain d ≠ .NORMAL →
      rainIntensity rain = .HEAVY ∨ rainIntensity rain = .TORRENTIAL) ∧
    (rainIntensity 2400 = .HEAVY ∧ floodStatus 2400 d = .NORMAL) ∧
    (rain ≠ 2400 →
      (floodStatus rain d ≠ .NORMAL ↔
        (rainIntensity rain = .HEAVY ∨ rainIntensity rain = .TORRENTIAL))) := by
  have hn := floodStatus_eq_NORMAL_iff rain d
  have hht : (rainIntensity rain = .HEAVY ∨ rainIntensity rain = .TORRENTIAL)
      ↔ rain ≤ 2400 := by
    unfold rainIntensity
    split_ifs <;> simp_all <;> omega
  refine ⟨?_, ⟨by decide, (floodStatus_eq_NORMAL_iff 2400 d).mpr (by omega)⟩, ?_⟩
  · intro hne
    have hlt : ¬ 2400 ≤ rain := fun hge => hne (hn.mpr hge)
    exact hht.mpr (by omega)
  · intro hne24
    constructor
    · intro hne
      have hlt : ¬ 2400 ≤ rain := fun hge => hne (hn.mpr hge)
      exact hht.mpr (by omega)
    · intro hor he
      have h1 := hht.mp hor
      have h2 := hn.mp he
      omega

/-- Claim C10 witness: at `rain = 2000, d = 5` the flood status is
non-NORMAL and the intensity is indeed HEAVY or TORRENTIAL. -/
theorem ladders_disagree_only_at_2400_witness :
    rainIntensity 2000 = .HEAVY ∨ rainIntensity 2000 = .TORRENTIAL :=
  (ladders_disagree_only_at_2400 2000 5).1 (by decide)

end SmartNode
